/-
Verification of the NAT (Neighborhood Attention Transformer) model family and
the auto-dispatch facade of this repository, against its specification.

Shallow embedding conventions:
* machine tensors are modelled at the level the claims need: shape tuples for
  shape contracts, lists of rationals for value-level claims;
* Python exceptions are modelled with `Except NatError`;
* framework primitives that the spec places out of scope (dense projections,
  convolution arithmetic, softmax, loss primitives) are abstracted: shape-level
  semantics are embedded exactly, value-level primitives are either carried as
  function parameters or represented by which primitive is invoked.
-/
import Mathlib

namespace Spec2Proof

/-- Errors raised by the modelled code paths.  `optionalDependencyNotAvailable`
corresponds to `OptionalDependencyNotAvailable`, `valueError` to Python
`ValueError(msg)`, `attributeError` to Python `AttributeError` on a missing
attribute name. -/
inductive NatError where
  | optionalDependencyNotAvailable : NatError
  | valueError : String → NatError
  | attributeError : String → NatError
deriving DecidableEq, Repr

/-! ### Neighborhood-attention kernels (modeling_nat.py lines 48-53)

`natten2dqkrpb(*args, **kwargs)` and `natten2dav(*args, **kwargs)` are defined
unconditionally to raise `OptionalDependencyNotAvailable()`.  The argument list
is arbitrary (`*args, **kwargs`), which the embedding reflects by quantifying
over the argument type. -/

/-- `natten2dqkrpb`: raises `OptionalDependencyNotAvailable` for every
argument list. -/
def natten2dqkrpb {α β : Type _} (_args : α) : Except NatError β :=
  Except.error NatError.optionalDependencyNotAvailable

/-- `natten2dav`: raises `OptionalDependencyNotAvailable` for every
argument list. -/
def natten2dav {α β : Type _} (_args : α) : Except NatError β :=
  Except.error NatError.optionalDependencyNotAvailable

/-- `NeighborhoodAttention.construct` (modeling_nat.py lines 359-394) in the
`Except` monad.  The pure framework primitives it composes (the q/k/v dense
projections, `transpose_for_scores`, the `1/sqrt(head_dim)` query scaling,
softmax, dropout and the head-merging reshape) are out-of-scope tensor
primitives and are carried as function parameters; the two kernel invocations
are the embedded `natten2dqkrpb` / `natten2dav` above and any error they raise
propagates — there is no fallback branch in the source. -/
def NeighborhoodAttention.construct {T : Type _}
    (query key value transpose_for_scores scaleQuery softmax dropout mergeHeads :
      T → T)
    (rpb : T) (kernel_size : Nat)
    (hidden_states : T) (output_attentions : Bool) :
    Except NatError (T × Option T) := do
  let query_layer := transpose_for_scores (query hidden_states)
  let key_layer := transpose_for_scores (key hidden_states)
  let value_layer := transpose_for_scores (value hidden_states)
  let query_layer := scaleQuery query_layer
  let attention_scores ←
    natten2dqkrpb (query_layer, key_layer, rpb, kernel_size, 1)
  let attention_probs := softmax attention_scores
  let attention_probs := dropout attention_probs
  let context_layer ←
    natten2dav (attention_probs, value_layer, kernel_size, 1)
  let context_layer := mergeHeads context_layer
  pure (context_layer,
    if output_attentions then some attention_probs else none)

/-! ### Drop path (`drop_path`, modeling_nat.py lines 283-304)

Value-level tensors are modelled as a batch (outer list) of flattened
per-sample slices.  The source draws `ops.rand` with shape
`(batch, 1, …, 1)` — one draw per sample, broadcast over every remaining
dimension — so the same factor multiplies every entry of a sample's flattened
slice; the draws are supplied as an oracle `rand : ℕ → ℚ` indexed by sample. -/

/-- The training branch of `drop_path`:
`random_tensor = (keep_prob + rand).floor_()` (one draw per sample) and
`output = input.div(keep_prob) * random_tensor`, sample `i` getting draw
`rand i`. -/
def dropPathScaledRows (keep_prob : ℚ) (rand : ℕ → ℚ) :
    ℕ → List (List ℚ) → List (List ℚ)
  | _, [] => []
  | i, row :: rest =>
      row.map (fun x => x / keep_prob * ((⌊keep_prob + rand i⌋ : ℤ) : ℚ)) ::
        dropPathScaledRows keep_prob rand (i + 1) rest

/-- `drop_path(input, drop_prob, training)`: returns the input unchanged when
`drop_prob == 0.0 or not training`, otherwise applies the per-sample
binarized-scaling branch with `keep_prob = 1 - drop_prob`. -/
def drop_path (input : List (List ℚ)) (drop_prob : ℚ) (training : Bool)
    (rand : ℕ → ℚ) : List (List ℚ) :=
  if drop_prob = 0 ∨ training = false then input
  else dropPathScaledRows (1 - drop_prob) rand 0 input

/-! ### Patch embedding (`NatPatchEmbeddings`, modeling_nat.py lines 200-247)

The constructor stores `num_channels` and builds two 3×3 stride-2 padding-1
convolutions `num_channels → embed_dim/2 → embed_dim`, after raising
`ValueError` unless `config.patch_size == 4`.  The forward pass raises
`ValueError` on a channel mismatch and otherwise returns the convolved tensor
permuted to channel-last layout.  Shapes are embedded exactly; the convolution
values themselves are out-of-scope framework primitives. -/

/-- Configuration fields used by `NatPatchEmbeddings`. -/
structure PatchConfig where
  patch_size : Nat
  num_channels : Nat
  embed_dim : Nat
deriving DecidableEq, Repr

/-- State stored by a constructed `NatPatchEmbeddings` module. -/
structure NatPatchEmbeddings where
  num_channels : Nat
  hidden_size : Nat
deriving DecidableEq, Repr

/-- `NatPatchEmbeddings.__init__`: raises `ValueError` unless
`config.patch_size == 4`, before the projection convolutions are built. -/
def NatPatchEmbeddings.init (config : PatchConfig) :
    Except NatError NatPatchEmbeddings :=
  if config.patch_size = 4 then
    Except.ok { num_channels := config.num_channels,
                hidden_size := config.embed_dim }
  else
    Except.error (NatError.valueError
      "Dinat only supports patch size of 4 at the moment.")

/-- Output spatial size of a 2-D convolution along one axis:
`(size + 2*padding - kernel_size) / stride + 1` (floor division). -/
def conv2dOutDim (size kernel_size stride padding : Nat) : Nat :=
  (size + 2 * padding - kernel_size) / stride + 1

/-- Shape of a rank-4 tensor `(batch, d1, d2, d3)`. -/
structure Shape4 where
  d0 : Nat
  d1 : Nat
  d2 : Nat
  d3 : Nat
deriving DecidableEq, Repr

/-- `NatPatchEmbeddings.construct` at shape level: checks the channel count,
applies the two 3×3 stride-2 padding-1 convolutions
(`num_channels → hidden_size/2 → hidden_size`) and permutes `(0, 2, 3, 1)`. -/
def NatPatchEmbeddings.construct (self : NatPatchEmbeddings)
    (pixel_values : Shape4) : Except NatError Shape4 :=
  if pixel_values.d1 ≠ self.num_channels then
    Except.error (NatError.valueError
      "Make sure that the channel dimension of the pixel values match with the one set in the configuration.")
  else
    let h1 := conv2dOutDim pixel_values.d2 3 2 1
    let w1 := conv2dOutDim pixel_values.d3 3 2 1
    let h2 := conv2dOutDim h1 3 2 1
    let w2 := conv2dOutDim w1 3 2 1
    -- after the convolutions the layout is (batch, hidden_size, h2, w2);
    -- permute (0, 2, 3, 1) makes it channel-last
    Except.ok ⟨pixel_values.d0, h2, w2, self.hidden_size⟩

/-! ### Neighborhood attention constructor (`NeighborhoodAttention.__init__`,
modeling_nat.py lines 321-349) -/

/-- Hyper-parameter state stored by a constructed `NeighborhoodAttention`. -/
structure NeighborhoodAttentionState where
  num_attention_heads : Nat
  attention_head_size : Nat
  all_head_size : Nat
  kernel_size : Nat
deriving DecidableEq, Repr

/-- `NeighborhoodAttention.__init__`: raises `ValueError` when `dim` is not a
multiple of `num_heads`; otherwise stores `num_heads`,
`attention_head_size = dim / num_heads` and
`all_head_size = num_heads * attention_head_size`. -/
def NeighborhoodAttention.init (dim num_heads kernel_size : Nat) :
    Except NatError NeighborhoodAttentionState :=
  if dim % num_heads ≠ 0 then
    Except.error (NatError.valueError
      "The hidden size is not a multiple of the number of attention heads")
  else
    Except.ok { num_attention_heads := num_heads,
                attention_head_size := dim / num_heads,
                all_head_size := num_heads * (dim / num_heads),
                kernel_size := kernel_size }

/-- Concrete random oracle used by drop-path witnesses: sample 0 draws `1/4`,
every later sample draws `3/4`. -/
def dropPathWitnessRand : ℕ → ℚ := fun i => if i = 0 then 1/4 else 3/4

/-! ### Classification head loss-type inference
(`NatForImageClassification.construct`, modeling_nat.py lines 897-919)

The labels branch first infers and caches `config.problem_type` when it is
unset, then dispatches on the (possibly cached) value to one of three loss
primitives.  The loss primitives themselves are out-of-scope framework
functions; the embedding records which primitive is invoked. -/

/-- Tensor element types relevant to the label-dtype test.  The source
compares the label dtype against `ms.int64` and `ms.int32` only. -/
inductive MSDtype where
  | int64 | int32 | int16 | int8 | uint8 | float16 | float32 | float64
deriving DecidableEq, Repr

/-- Whether a dtype is an integer type (the spec's phrase "an integer type"). -/
def MSDtype.isInteger : MSDtype → Bool
  | .int64 | .int32 | .int16 | .int8 | .uint8 => true
  | _ => false

/-- The three values `config.problem_type` can be set to. -/
inductive ProblemType where
  | regression | singleLabelClassification | multiLabelClassification
deriving DecidableEq, Repr

/-- The configuration state read and mutated by the loss branch. -/
structure ClsConfig where
  problem_type : Option ProblemType
  num_labels : Nat
deriving DecidableEq, Repr

/-- Which loss primitive the loss branch invokes.  `mseLossSqueezed` is
`ops.mse_loss(logits.squeeze(), labels.squeeze())`, `mseLoss` is
`ops.mse_loss(logits, labels)`, `crossEntropy` is `ops.cross_entropy` over the
flattened views, `binaryCrossEntropyWithLogits` is
`ops.binary_cross_entropy_with_logits(logits, labels)`. -/
inductive LossKind where
  | mseLossSqueezed | mseLoss | crossEntropy | binaryCrossEntropyWithLogits
deriving DecidableEq, Repr

/-- The inference-and-cache step (lines 899-907): when `problem_type` is
unset, set it to `regression` if `num_labels == 1`, else to
`single_label_classification` if `num_labels > 1` and the label dtype is
`ms.int64` or `ms.int32`, else to `multi_label_classification`; when already
set, leave the configuration untouched. -/
def inferProblemType (config : ClsConfig) (labels_dtype : MSDtype) :
    ClsConfig :=
  if config.problem_type = none then
    if config.num_labels = 1 then
      { config with problem_type := some ProblemType.regression }
    else if 1 < config.num_labels ∧
        (labels_dtype = MSDtype.int64 ∨ labels_dtype = MSDtype.int32) then
      { config with problem_type := some ProblemType.singleLabelClassification }
    else
      { config with problem_type := some ProblemType.multiLabelClassification }
  else config

/-- The loss dispatch (lines 909-919), keyed on the configuration's
`problem_type` after inference. -/
def selectLoss (config : ClsConfig) : Option LossKind :=
  match config.problem_type with
  | some ProblemType.regression =>
      some (if config.num_labels = 1 then LossKind.mseLossSqueezed
            else LossKind.mseLoss)
  | some ProblemType.singleLabelClassification => some LossKind.crossEntropy
  | some ProblemType.multiLabelClassification =>
      some LossKind.binaryCrossEntropyWithLogits
  | none => none

/-- The whole labels branch of `NatForImageClassification.construct`: infer
and cache the problem type, then invoke the matching loss primitive.  Returns
the updated configuration and the invoked primitive. -/
def natForImageClassificationLossStep (config : ClsConfig)
    (labels_dtype : MSDtype) : ClsConfig × Option LossKind :=
  let config := inferProblemType config labels_dtype
  (config, selectLoss config)

/-- Follows the spec's words of C2 only, for comparison with the code's rule:
"regression" if `num_labels = 1`; else "single_label_classification" if the
label tensor's element type is an integer type; else
"multi_label_classification". -/
def specProblemTypeRule (num_labels : Nat) (labels_dtype : MSDtype) :
    ProblemType :=
  if num_labels = 1 then ProblemType.regression
  else if labels_dtype.isInteger then ProblemType.singleLabelClassification
  else ProblemType.multiLabelClassification

/-! ### Head pruning (`NeighborhoodAttentionModule.prune_heads`,
modeling_nat.py lines 417-438)

`prune_heads` calls the shared helpers `find_pruneable_heads_and_indices` and
`prune_linear_layer` from the repository's tensor-utility module (not among
the given sources); they are modelled below from the spec's description of
pruning (§4.3).  Weight entries only get selected, never computed with, so
they range over an arbitrary inhabited type `α`; a dense layer is its weight
matrix (list of output rows) plus an optional bias vector. -/

/-- A dense (`nn.Dense`) layer's parameters: `weight` as a list of output
rows over the input features, and an optional `bias`. -/
structure LinearLayer (α : Type _) where
  weight : List (List α)
  bias : Option (List α)
deriving DecidableEq

/-- Modelled from the spec (§4.3 "slice the query/key/value projection
weights … to drop the pruned heads' indices"): `prune_linear_layer` with the
default axis 0 — keep the weight rows and bias entries at the given indices,
in order. -/
def prune_linear_layer {α : Type _} [Inhabited α] (layer : LinearLayer α)
    (index : List ℕ) : LinearLayer α :=
  { weight := index.map (fun i => layer.weight.getD i []),
    bias := layer.bias.map (fun b => index.map (fun i => b.getD i default)) }

/-- Modelled from the spec (§4.3 "the output dense weight (output's input
axis)"): `prune_linear_layer` with axis 1 — keep, in every weight row, the
columns at the given indices; the bias is untouched. -/
def prune_linear_layer_axis1 {α : Type _} [Inhabited α] (layer : LinearLayer α)
    (index : List ℕ) : LinearLayer α :=
  { weight := layer.weight.map
      (fun row => index.map (fun i => row.getD i default)),
    bias := layer.bias }

/-- The flattened positions of the mask ones: for every head `h < n_heads`
not in `adjusted`, the contiguous block
`[h*head_size, (h+1)*head_size)` of value-vector indices, in increasing
order. -/
def keptIndex (n_heads head_size : ℕ) (adjusted : Finset ℕ) : List ℕ :=
  ((List.range n_heads).filter (fun h => h ∉ adjusted)).flatMap
    (fun h => (List.range head_size).map (fun i => h * head_size + i))

/-- Modelled from the spec (§4.3 "recompute which value-vector indices belong
to surviving heads … record pruned-head indices to make repeated pruning of
the same heads a no-op"): drop the already-pruned heads from the requested
set, shift each remaining head index down by the number of earlier-pruned
heads below it, and return the surviving heads together with the kept
flattened value-vector indices. -/
def find_pruneable_heads_and_indices (heads : Finset ℕ)
    (n_heads head_size : ℕ) (already_pruned_heads : Finset ℕ) :
    Finset ℕ × List ℕ :=
  (heads \ already_pruned_heads,
    keptIndex n_heads head_size
      ((heads \ already_pruned_heads).image
        (fun h => h - (already_pruned_heads.filter (· < h)).card)))

/-- The state of a `NeighborhoodAttentionModule` touched by `prune_heads`:
the inner attention's hyper-parameters and q/k/v projections, the output
sub-layer's dense projection, and the recorded pruned-head set. -/
structure NeighborhoodAttentionModuleState (α : Type _) where
  num_attention_heads : ℕ
  attention_head_size : ℕ
  all_head_size : ℕ
  query : LinearLayer α
  key : LinearLayer α
  value : LinearLayer α
  output_dense : LinearLayer α
  pruned_heads : Finset ℕ
deriving DecidableEq

/-- `NeighborhoodAttentionModule.prune_heads` (lines 417-438): return
unchanged on an empty request; otherwise find the surviving heads and kept
indices, slice q/k/v on axis 0 and the output dense on axis 1, decrease the
head count by the number of newly pruned heads, recompute `all_head_size`,
and record the pruned heads. -/
def NeighborhoodAttentionModuleState.prune_heads {α : Type _} [Inhabited α]
    (self : NeighborhoodAttentionModuleState α) (heads : Finset ℕ) :
    NeighborhoodAttentionModuleState α :=
  if heads.card = 0 then self
  else
    let fp := find_pruneable_heads_and_indices heads self.num_attention_heads
      self.attention_head_size self.pruned_heads
    { num_attention_heads := self.num_attention_heads - fp.1.card,
      attention_head_size := self.attention_head_size,
      all_head_size := self.attention_head_size *
        (self.num_attention_heads - fp.1.card),
      query := prune_linear_layer self.query fp.2,
      key := prune_linear_layer self.key fp.2,
      value := prune_linear_layer self.value fp.2,
      output_dense := prune_linear_layer_axis1 self.output_dense fp.2,
      pruned_heads := self.pruned_heads ∪ fp.1 }

/-- Concrete fresh attention module used by the pruning witness: 3 heads of
size 1. -/
def pruneWitnessModule : NeighborhoodAttentionModuleState ℕ :=
  { num_attention_heads := 3,
    attention_head_size := 1,
    all_head_size := 3,
    query := ⟨[[10], [11], [12]], some [1, 2, 3]⟩,
    key := ⟨[[20], [21], [22]], some [4, 5, 6]⟩,
    value := ⟨[[30], [31], [32]], some [7, 8, 9]⟩,
    output_dense := ⟨[[40, 41, 42]], some [13]⟩,
    pruned_heads := ∅ }

/-! ### Model-level head pruning (`NatModel._prune_heads`, modeling_nat.py
lines 786-792, and `NatEncoder.__init__`, lines 605-629)

`NatModel._prune_heads` iterates `heads_to_prune` and runs
`self.encoder.layer[layer].attention.prune_heads(heads)`.  `NatEncoder`'s
constructor, however, assigns exactly the attributes `num_levels`, `config`
and `levels` — there is no attribute `layer` — so the attribute lookup is
embedded explicitly. -/

/-- Values an attribute lookup on a `NatEncoder` instance can produce. -/
inductive NatEncoderAttrValue (α : Type _) where
  | numLevelsVal (n : ℕ)
  | configVal
  | levelsVal (levels : List (List (NeighborhoodAttentionModuleState α)))

/-- The attributes a `NatEncoder` owns: `__init__` assigns `num_levels`,
`config` and `levels` (the stage list; each stage's layers carry the
attention modules). -/
structure NatEncoderState (α : Type _) where
  num_levels : ℕ
  levels : List (List (NeighborhoodAttentionModuleState α))

/-- Python attribute lookup on a `NatEncoder` instance: the three assigned
names resolve; any other name raises `AttributeError`. -/
def NatEncoder.getattr {α : Type _} (self : NatEncoderState α) :
    String → Except NatError (NatEncoderAttrValue α)
  | "num_levels" => Except.ok (NatEncoderAttrValue.numLevelsVal self.num_levels)
  | "config" => Except.ok NatEncoderAttrValue.configVal
  | "levels" => Except.ok (NatEncoderAttrValue.levelsVal self.levels)
  | name => Except.error (NatError.attributeError name)

/-- `NatModel._prune_heads`: for each `(layer, heads)` entry run
`self.encoder.layer[layer].attention.prune_heads(heads)`.  The first step of
each iteration is the attribute lookup `self.encoder.layer`; the indexing and
the delegation to `prune_heads` would follow it, but the lookup raises
`AttributeError` on every iteration, so they are unreachable. -/
def NatModel._prune_heads {α : Type _} (encoder : NatEncoderState α)
    (heads_to_prune : List (ℕ × Finset ℕ)) :
    Except NatError (NatEncoderState α) :=
  heads_to_prune.foldlM
    (fun enc _entry => do
      let _ ← NatEncoder.getattr enc "layer"
      pure enc)
    encoder

/-! ### Encoder hidden-state collection and backbone stage selection
(`NatEncoder.construct`, modeling_nat.py lines 631-683;
`NatBackbone.__init__` / `NatBackbone.construct`, lines 934-1045)

Hidden states are an abstract type `T` (channel-last layout) with an abstract
`permute : T → R` for the `permute(0, 3, 1, 2)` channel-first view; each
stage is an abstract `T → T × T` returning
`(hidden_states, hidden_states_before_downsampling)` exactly as
`NatStage.construct` does.  `stage_names` and `out_features` are provided by
the backbone configuration machinery (`BackboneMixin._init_backbone`,
`configuration_nat`), which is not among the given sources; they are
modelled from the spec (§4.10): the selected output-stage list is a subset
of `"stage1" … "stageN"` evaluated in fixed stage order, and the encoder's
collection points are the embedding boundary (named `"stem"`) plus one per
stage. -/

/-- The collection loop of `NatEncoder.construct` over the stages: thread the
hidden state through every stage; when `output_hidden_states` is set, record
after each stage either the before-downsampling state (when
`output_hidden_states_before_downsampling` is also set) or the
after-downsampling state, both as-is and in the permuted channel-first
view. -/
def natEncoderLevelsCollect {T R : Type _} (permute : T → R) :
    List (T → T × T) → T → Bool → Bool → T × (List T × List R)
  | [], hidden_states, _, _ => (hidden_states, ([], []))
  | level :: rest, hidden_states, ohs, obd =>
      let layer_outputs := level hidden_states
      let hs := layer_outputs.1
      let before := layer_outputs.2
      let tail := natEncoderLevelsCollect permute rest hs ohs obd
      let collected :=
        if ohs ∧ obd then (before :: tail.2.1, permute before :: tail.2.2)
        else if ohs ∧ ¬obd then (hs :: tail.2.1, permute hs :: tail.2.2)
        else tail.2
      (tail.1, collected)

/-- `NatEncoder.construct` restricted to its hidden-state outputs: record the
embedding output first (when collection is on), then run the stage loop.
Returns `(last_hidden_state, (hidden_states, reshaped_hidden_states))`. -/
def NatEncoder.construct_states {T R : Type _} (permute : T → R)
    (levels : List (T → T × T)) (hidden_states : T)
    (output_hidden_states output_hidden_states_before_downsampling : Bool) :
    T × (List T × List R) :=
  let r := natEncoderLevelsCollect permute levels hidden_states
    output_hidden_states output_hidden_states_before_downsampling
  (r.1,
    if output_hidden_states then
      (hidden_states :: r.2.1, permute hidden_states :: r.2.2)
    else r.2)

/-- `NatBackbone.construct`: resolve the caller-level `output_hidden_states`
flag against the configuration, run the encoder with hidden-state collection
hard-coded on (`output_hidden_states=True`,
`output_hidden_states_before_downsampling=True` in the source), then emit,
for each configured stage name paired with its reshaped hidden state and
in fixed stage order, a feature map only when the stage is among
`out_features`, normalized through the layer-norm instance keyed by that
stage name (`normApply stage` stands for
`self.hidden_states_norms[stage]` wrapped in the source's
flatten/normalize/unflatten permutes).  Returns the feature maps and the
optional hidden-state history. -/
def NatBackbone.construct {T R : Type _} (permute : T → R)
    (levels : List (T → T × T)) (stage_names out_features : List String)
    (normApply : String → R → R) (embedding_output : T)
    (output_hidden_states : Option Bool) (config_output_hidden_states : Bool) :
    List R × Option (List T) :=
  let ohs := output_hidden_states.getD config_output_hidden_states
  let outputs := NatEncoder.construct_states permute levels embedding_output
    true true
  let feature_maps := (stage_names.zip outputs.2.2).foldl
    (fun acc p => if p.1 ∈ out_features then acc ++ [normApply p.1 p.2]
      else acc) []
  (feature_maps, if ohs then some outputs.2.1 else none)

/-! ### Deprecated umbrella facade (`AutoModelWithLMHead`,
modeling_auto.py lines 633-635 and 747-766)

`AutoModelWithLMHead` subclasses `_AutoModelWithLMHead` (the
`_BaseAutoModelClass` bound to the LM-head task table); both of its class
methods call `warnings.warn(...)` with the fixed deprecation message and then
delegate unchanged to `super()`.  The base class's operations live in the
auto-factory module (not among the given sources), so they are carried as
abstract function parameters; an operation's outcome is modelled as the pair
of its result and the list of warnings it emitted. -/

/-- The deprecation message passed to `warnings.warn` by both class methods
of `AutoModelWithLMHead` (a `FutureWarning`, which does not interrupt
execution). -/
def autoModelWithLMHeadDeprecationWarning : String :=
  "The class `AutoModelWithLMHead` is deprecated and will be removed in a future version. Please use `AutoModelForCausalLM` for causal language models, `AutoModelForMaskedLM` for masked language models and `AutoModelForSeq2SeqLM` for encoder-decoder models."

/-- `AutoModelWithLMHead.from_config(config)`: warn, then return
`super().from_config(config)` unchanged. -/
def AutoModelWithLMHead.from_config {Config Model : Type _}
    (base_from_config : Config → Model) (config : Config) :
    Model × List String :=
  (base_from_config config, [autoModelWithLMHeadDeprecationWarning])

/-- `AutoModelWithLMHead.from_pretrained(name_or_path, *args, **kwargs)`:
warn, then return `super().from_pretrained(...)` unchanged. -/
def AutoModelWithLMHead.from_pretrained {Id Args Model : Type _}
    (base_from_pretrained : Id → Args → Model)
    (pretrained_model_name_or_path : Id) (model_args : Args) :
    Model × List String :=
  (base_from_pretrained pretrained_model_name_or_path model_args,
   [autoModelWithLMHeadDeprecationWarning])

/-! ### Theorems for claims C3 and C4 -/

/-- **C3.** Constructing `NatPatchEmbeddings` with any `patch_size ≠ 4`
(in particular 8) raises the configuration `ValueError` at construction,
before any tensor operation; with `patch_size = 4`, `embed_dim = 64`,
`num_channels = 3`, the forward pass maps an input of shape
`(1, 3, 224, 224)` to an output of shape `(1, 56, 56, 64)`. -/
theorem natPatchEmbeddings_patch4_shape (config : PatchConfig)
    (h : config.patch_size ≠ 4) :
    (∃ msg, NatPatchEmbeddings.init config =
      Except.error (NatError.valueError msg)) ∧
    NatPatchEmbeddings.init ⟨4, 3, 64⟩ = Except.ok ⟨3, 64⟩ ∧
    NatPatchEmbeddings.construct ⟨3, 64⟩ ⟨1, 3, 224, 224⟩ =
      Except.ok ⟨1, 56, 56, 64⟩ := by
  refine ⟨⟨"Dinat only supports patch size of 4 at the moment.", ?_⟩, rfl, rfl⟩
  simp [NatPatchEmbeddings.init, h]

/-- Witness for `natPatchEmbeddings_patch4_shape` at `patch_size = 8`. -/
theorem natPatchEmbeddings_patch4_shape_witness :
    (8 : Nat) ≠ 4 ∧
    ((∃ msg, NatPatchEmbeddings.init ⟨8, 3, 64⟩ =
      Except.error (NatError.valueError msg)) ∧
    NatPatchEmbeddings.init ⟨4, 3, 64⟩ = Except.ok ⟨3, 64⟩ ∧
    NatPatchEmbeddings.construct ⟨3, 64⟩ ⟨1, 3, 224, 224⟩ =
      Except.ok ⟨1, 56, 56, 64⟩) :=
  ⟨by decide, natPatchEmbeddings_patch4_shape ⟨8, 3, 64⟩ (by decide)⟩

/-- **C4.** `NeighborhoodAttention.__init__` with `dim = 96`, `num_heads = 7`
raises the configuration `ValueError`; with `num_heads = 3` it succeeds and the
stored `attention_head_size` equals `96 / 3 = 32`. -/
theorem neighborhoodAttention_head_divisibility :
    (∃ msg, NeighborhoodAttention.init 96 7 7 =
      Except.error (NatError.valueError msg)) ∧
    (∃ s, NeighborhoodAttention.init 96 3 7 = Except.ok s ∧
      s.attention_head_size = 32 ∧ s.num_attention_heads = 3) := by
  exact ⟨⟨"The hidden size is not a multiple of the number of attention heads", rfl⟩,
    ⟨⟨3, 32, 96, 7⟩, rfl, rfl, rfl⟩⟩

/-- **C1.** For every argument list, `natten2dqkrpb` and `natten2dav` fail
with the optional-dependency-unavailable error, and every
`NeighborhoodAttention.construct` call — for every choice of the out-of-scope
tensor primitives and every input — propagates that error from the logit
kernel with no fallback computation path. -/
theorem natten_unavailable_no_fallback {α β T : Type} (args : α)
    (query key value transpose_for_scores scaleQuery softmax dropout
      mergeHeads : T → T)
    (rpb : T) (kernel_size : Nat) (hidden_states : T)
    (output_attentions : Bool) :
    @natten2dqkrpb α β args =
      Except.error NatError.optionalDependencyNotAvailable ∧
    @natten2dav α β args =
      Except.error NatError.optionalDependencyNotAvailable ∧
    NeighborhoodAttention.construct query key value transpose_for_scores
        scaleQuery softmax dropout mergeHeads rpb kernel_size hidden_states
        output_attentions =
      Except.error NatError.optionalDependencyNotAvailable :=
  ⟨rfl, rfl, rfl⟩

/-- **C8.** With `drop_prob = 0` or outside training mode, `drop_path` returns
its input unchanged, for every batch and slice contents. -/
theorem drop_path_identity_inference (input : List (List ℚ)) (drop_prob : ℚ)
    (training : Bool) (rand : ℕ → ℚ)
    (h : drop_prob = 0 ∨ training = false) :
    drop_path input drop_prob training rand = input := by
  rw [drop_path, if_pos h]

/-- Witness for `drop_path_identity_inference`: both the `drop_prob = 0` and
the non-training branch at a concrete batch. -/
theorem drop_path_identity_inference_witness :
    drop_path [[1, 2], [3]] 0 true dropPathWitnessRand = [[1, 2], [3]] ∧
    drop_path [[1, 2], [3]] (1/2) false dropPathWitnessRand = [[1, 2], [3]] :=
  ⟨drop_path_identity_inference _ _ _ _ (Or.inl rfl),
   drop_path_identity_inference _ _ _ _ (Or.inr rfl)⟩

/-- Index lemma for the training branch of drop path: sample `i` of the output
is the input sample scaled by `floor(keep_prob + rand (j+i)) / keep_prob`. -/
theorem dropPathScaledRows_get? (keep_prob : ℚ) (rand : ℕ → ℚ) :
    ∀ (l : List (List ℚ)) (j i : ℕ),
      (dropPathScaledRows keep_prob rand j l).get? i =
        (l.get? i).map
          (fun row => row.map
            (fun x => x / keep_prob * ((⌊keep_prob + rand (j + i)⌋ : ℤ) : ℚ)))
  | [], _, _ => by simp [dropPathScaledRows]
  | _ :: _, _, 0 => by simp [dropPathScaledRows]
  | _ :: rest, j, i + 1 => by
    have h : j + (i + 1) = (j + 1) + i := by omega
    simpa [dropPathScaledRows, h] using
      dropPathScaledRows_get? keep_prob rand rest (j + 1) i

/-- **C9.** In training mode with `0 < drop_prob = p < 1` and per-sample draws
in `[0, 1)`, every sample slice of the drop-path output is either exactly zero
(when its single draw falls below `p`) or exactly the corresponding input
slice scaled by `1 / (1 - p)` (when it does not); the decision is a single
draw per sample, applied uniformly to the whole slice. -/
theorem drop_path_training_per_sample (input : List (List ℚ)) (p : ℚ)
    (rand : ℕ → ℚ) (i : ℕ) (h0 : 0 < p) (h1 : p < 1)
    (hr0 : 0 ≤ rand i) (hr1 : rand i < 1) :
    (rand i < p →
      (drop_path input p true rand).get? i =
        (input.get? i).map (fun row => List.replicate row.length (0 : ℚ))) ∧
    (p ≤ rand i →
      (drop_path input p true rand).get? i =
        (input.get? i).map
          (fun row => row.map (fun x => x * (1 / (1 - p))))) := by
  have hcond : ¬(p = 0 ∨ true = false) := by
    rintro (h | h)
    · exact absurd h (ne_of_gt h0)
    · exact Bool.noConfusion h
  rw [drop_path, if_neg hcond, dropPathScaledRows_get?]
  simp only [Nat.zero_add]
  constructor
  · intro hlt
    have hfloor : ⌊(1 - p) + rand i⌋ = 0 := by
      rw [Int.floor_eq_zero_iff]
      exact ⟨by linarith, by linarith⟩
    simp only [hfloor, Int.cast_zero, mul_zero]
    cases input.get? i with
    | none => rfl
    | some row => simp [List.map_const']
  · intro hge
    have hfloor : ⌊(1 - p) + rand i⌋ = 1 := by
      rw [Int.floor_eq_iff]
      constructor
      · push_cast; linarith
      · push_cast; linarith
    simp only [hfloor, Int.cast_one, mul_one]
    cases input.get? i with
    | none => rfl
    | some row => simp [div_eq_mul_inv, one_div]

/-- Witness for `drop_path_training_per_sample`: with `p = 1/2`, sample 0
draws `1/4 < p` (zeroed) and sample 1 draws `3/4 ≥ p` (rescaled). -/
theorem drop_path_training_per_sample_witness :
    (drop_path [[2, 3], [4]] (1/2) true dropPathWitnessRand).get? 0 =
      (([[2, 3], [4]] : List (List ℚ)).get? 0).map
        (fun row => List.replicate row.length (0 : ℚ)) ∧
    (drop_path [[2, 3], [4]] (1/2) true dropPathWitnessRand).get? 1 =
      (([[2, 3], [4]] : List (List ℚ)).get? 1).map
        (fun row => row.map (fun x => x * (1 / (1 - 1/2)))) :=
  ⟨(drop_path_training_per_sample [[2, 3], [4]] (1/2) dropPathWitnessRand 0
      (by norm_num) (by norm_num) (by norm_num [dropPathWitnessRand])
      (by norm_num [dropPathWitnessRand])).1
      (by norm_num [dropPathWitnessRand]),
   (drop_path_training_per_sample [[2, 3], [4]] (1/2) dropPathWitnessRand 1
      (by norm_num) (by norm_num) (by norm_num [dropPathWitnessRand])
      (by norm_num [dropPathWitnessRand])).2
      (by norm_num [dropPathWitnessRand])⟩

/-- Inference never changes `num_labels`. -/
theorem inferProblemType_num_labels (config : ClsConfig) (d : MSDtype) :
    (inferProblemType config d).num_labels = config.num_labels := by
  unfold inferProblemType
  split
  · split
    · rfl
    · split <;> rfl
  · rfl

/-- Starting from an unset `problem_type`, inference always caches a value. -/
theorem inferProblemType_sets (config : ClsConfig) (d : MSDtype)
    (h : config.problem_type = none) :
    (inferProblemType config d).problem_type ≠ none := by
  unfold inferProblemType
  rw [if_pos h]
  split
  · simp
  · split <;> simp

/-- **C2 (counterexample to the claim as stated).** With `num_labels = 5` and
`int16`-typed labels — an integer element type, for which the claim's rule
gives `single_label_classification` — the code caches
`multi_label_classification` and invokes binary cross entropy with logits. -/
theorem natForImageClassification_int16_counterexample :
    MSDtype.isInteger MSDtype.int16 = true ∧
    specProblemTypeRule 5 MSDtype.int16 =
      ProblemType.singleLabelClassification ∧
    (natForImageClassificationLossStep ⟨none, 5⟩ MSDtype.int16).1.problem_type =
      some ProblemType.multiLabelClassification ∧
    (natForImageClassificationLossStep ⟨none, 5⟩ MSDtype.int16).2 =
      some LossKind.binaryCrossEntropyWithLogits :=
  ⟨rfl, rfl, rfl, rfl⟩

/-- **C2 (amended).** When labels are supplied and `problem_type` is unset,
the code infers and permanently caches on the configuration: `regression` if
`num_labels = 1`; else `single_label_classification` if the label dtype is
`int64` or `int32`; else `multi_label_classification`; the matching loss
primitive (mean-squared error / cross-entropy /
binary-cross-entropy-with-logits) is invoked, and a second call with labels
(of any dtype) reuses the cached value without re-inference. -/
theorem natForImageClassification_problemType_inference (config : ClsConfig)
    (d d₂ : MSDtype) (h : config.problem_type = none) :
    (config.num_labels = 1 →
      (natForImageClassificationLossStep config d).1.problem_type =
        some ProblemType.regression ∧
      (natForImageClassificationLossStep config d).2 =
        some LossKind.mseLossSqueezed) ∧
    (1 < config.num_labels → (d = MSDtype.int64 ∨ d = MSDtype.int32) →
      (natForImageClassificationLossStep config d).1.problem_type =
        some ProblemType.singleLabelClassification ∧
      (natForImageClassificationLossStep config d).2 =
        some LossKind.crossEntropy) ∧
    (1 < config.num_labels → ¬(d = MSDtype.int64 ∨ d = MSDtype.int32) →
      (natForImageClassificationLossStep config d).1.problem_type =
        some ProblemType.multiLabelClassification ∧
      (natForImageClassificationLossStep config d).2 =
        some LossKind.binaryCrossEntropyWithLogits) ∧
    (natForImageClassificationLossStep config d).1.num_labels =
      config.num_labels ∧
    natForImageClassificationLossStep
        (natForImageClassificationLossStep config d).1 d₂ =
      ((natForImageClassificationLossStep config d).1,
       (natForImageClassificationLossStep config d).2) := by
  refine ⟨?_, ?_, ?_, ?_, ?_⟩
  · intro hn1
    simp [natForImageClassificationLossStep, inferProblemType, selectLoss, h,
      hn1]
  · intro h1n hd
    have hne : config.num_labels ≠ 1 := by omega
    have hcond : 1 < config.num_labels ∧
        (d = MSDtype.int64 ∨ d = MSDtype.int32) := ⟨h1n, hd⟩
    simp [natForImageClassificationLossStep, inferProblemType, selectLoss, h,
      hne, hcond]
  · intro h1n hnd
    have hne : config.num_labels ≠ 1 := by omega
    have hcond : ¬(1 < config.num_labels ∧
        (d = MSDtype.int64 ∨ d = MSDtype.int32)) := fun hc => hnd hc.2
    simp [natForImageClassificationLossStep, inferProblemType, selectLoss, h,
      hne, hcond]
  · exact inferProblemType_num_labels config d
  · have hset := inferProblemType_sets config d h
    show natForImageClassificationLossStep (inferProblemType config d) d₂ = _
    unfold natForImageClassificationLossStep
    rw [inferProblemType, if_neg (by simpa using hset)]

/-- Witness for `natForImageClassification_problemType_inference`:
regression caching at `num_labels = 1`, single-label caching at
`num_labels = 5` with `int64` labels, and cache reuse on a second call with a
float dtype. -/
theorem natForImageClassification_problemType_inference_witness :
    (natForImageClassificationLossStep ⟨none, 1⟩ MSDtype.float32).1.problem_type =
      some ProblemType.regression ∧
    (natForImageClassificationLossStep ⟨none, 1⟩ MSDtype.float32).2 =
      some LossKind.mseLossSqueezed ∧
    (natForImageClassificationLossStep ⟨none, 5⟩ MSDtype.int64).1.problem_type =
      some ProblemType.singleLabelClassification ∧
    natForImageClassificationLossStep
        (natForImageClassificationLossStep ⟨none, 5⟩ MSDtype.int64).1
        MSDtype.float32 =
      ((natForImageClassificationLossStep ⟨none, 5⟩ MSDtype.int64).1,
       (natForImageClassificationLossStep ⟨none, 5⟩ MSDtype.int64).2) :=
  ⟨((natForImageClassification_problemType_inference ⟨none, 1⟩ MSDtype.float32
      MSDtype.float32 rfl).1 rfl).1,
   ((natForImageClassification_problemType_inference ⟨none, 1⟩ MSDtype.float32
      MSDtype.float32 rfl).1 rfl).2,
   ((natForImageClassification_problemType_inference ⟨none, 5⟩ MSDtype.int64
      MSDtype.float32 rfl).2.1 (by decide) (Or.inl rfl)).1,
   (natForImageClassification_problemType_inference ⟨none, 5⟩ MSDtype.int64
      MSDtype.float32 rfl).2.2.2.2⟩
theorem map_range_getD {α : Type _} (d : α) : ∀ (l : List α),
    (List.range l.length).map (fun i => l.getD i d) = l
  | [] => rfl
  | a :: t => by
    rw [List.length_cons, List.range_succ_eq_map]
    simp only [List.map_cons, List.getD_cons_zero, List.map_map]
    have h : ((fun i => (a :: t).getD i d) ∘ Nat.succ) = fun i => t.getD i d := by
      funext i; simp
    rw [h, map_range_getD d t]

theorem blocks_eq_range (hs : ℕ) : ∀ (n : ℕ),
    (List.range n).flatMap (fun h => (List.range hs).map (fun i => h * hs + i)) =
      List.range (n * hs)
  | 0 => by simp
  | n + 1 => by
    rw [List.range_succ, List.flatMap_append, blocks_eq_range hs n]
    have h1 : (n + 1) * hs = n * hs + hs := by ring
    rw [h1, List.range_add]
    simp

theorem filter_notmem_card (A : Finset ℕ) : ∀ (n : ℕ),
    ((List.range n).filter (fun h => h ∉ A)).length + (A.filter (· < n)).card = n
  | 0 => by
    have h : A.filter (· < 0) = ∅ := Finset.filter_false_of_mem (by intro x _; omega)
    simp [h]
  | n + 1 => by
    have ih := filter_notmem_card A n
    rw [List.range_succ, List.filter_append, List.length_append]
    by_cases hn : n ∈ A
    · have hfilter : A.filter (· < n + 1) = insert n (A.filter (· < n)) := by
        ext x
        simp only [Finset.mem_filter, Finset.mem_insert]
        constructor
        · rintro ⟨hx, hlt⟩
          by_cases hxn : x = n
          · exact Or.inl hxn
          · exact Or.inr ⟨hx, by omega⟩
        · rintro (hxn | ⟨hx, hlt⟩)
          · subst hxn; exact ⟨hn, by omega⟩
          · exact ⟨hx, by omega⟩
      rw [hfilter, Finset.card_insert_of_not_mem (by simp)]
      have h1 : (([n] : List ℕ).filter (fun h => h ∉ A)).length = 0 := by simp [hn]
      omega
    · have hfilter : A.filter (· < n + 1) = A.filter (· < n) := by
        ext x
        simp only [Finset.mem_filter]
        constructor
        · rintro ⟨hx, hlt⟩
          refine ⟨hx, ?_⟩
          rcases Nat.lt_succ_iff_lt_or_eq.mp hlt with h | h
          · exact h
          · exact absurd (h ▸ hx) hn
        · rintro ⟨hx, hlt⟩
          exact ⟨hx, by omega⟩
      rw [hfilter]
      have h1 : (([n] : List ℕ).filter (fun h => h ∉ A)).length = 1 := by simp [hn]
      omega

theorem flatMap_blocks_length (hs : ℕ) (l : List ℕ) :
    (l.flatMap (fun h => (List.range hs).map (fun i => h * hs + i))).length =
      l.length * hs := by
  rw [List.length_flatMap]
  simp only [Function.comp_def]
  have h : l.map (fun x => ((List.range hs).map (fun i => x * hs + i)).length) =
      l.map (fun _ => hs) := by
    apply List.map_congr_left; intro a _; simp
  rw [h, List.map_const', List.sum_replicate, smul_eq_mul]

theorem prune_linear_layer_full {α : Type _} [Inhabited α] (l : LinearLayer α)
    (L : ℕ) (hw : l.weight.length = L) (hb : ∀ b ∈ l.bias, b.length = L) :
    prune_linear_layer l (List.range L) = l := by
  unfold prune_linear_layer
  have h1 : (List.range L).map (fun i => l.weight.getD i []) = l.weight := by
    rw [← hw, map_range_getD]
  have h2 : l.bias.map (fun b => (List.range L).map (fun i => b.getD i default)) =
      l.bias := by
    cases hob : l.bias with
    | none => rfl
    | some b =>
      have hbl := hb b (by rw [hob]; rfl)
      simp only [Option.map_some']
      rw [← hbl, map_range_getD]
  rw [h1, h2]

theorem prune_linear_layer_axis1_full {α : Type _} [Inhabited α]
    (l : LinearLayer α) (L : ℕ) (hw : ∀ row ∈ l.weight, row.length = L) :
    prune_linear_layer_axis1 l (List.range L) = l := by
  unfold prune_linear_layer_axis1
  have h1 : l.weight.map (fun row => (List.range L).map (fun i => row.getD i default)) =
      l.weight := by
    have := List.map_congr_left (l := l.weight)
      (f := fun row => (List.range L).map (fun i => row.getD i default)) (g := id)
      (by intro row hrow
          have := hw row hrow
          simp only [id]
          rw [← this, map_range_getD])
    rw [this, List.map_id]
  rw [h1]


theorem keptIndex_empty (n hs : ℕ) : keptIndex n hs ∅ = List.range (n * hs) := by
  unfold keptIndex
  have h : (List.range n).filter (fun h => h ∉ (∅ : Finset ℕ)) = List.range n := by
    simp
  rw [h, blocks_eq_range]

theorem keptIndex_length (n hs : ℕ) (A : Finset ℕ) :
    (keptIndex n hs A).length =
      ((List.range n).filter (fun h => h ∉ A)).length * hs := by
  unfold keptIndex
  rw [flatMap_blocks_length]

theorem fp_fresh (H : Finset ℕ) (n hs : ℕ) :
    find_pruneable_heads_and_indices H n hs ∅ = (H, keptIndex n hs H) := by
  unfold find_pruneable_heads_and_indices
  rw [Finset.sdiff_empty]
  have h : H.image (fun h => h - ((∅ : Finset ℕ).filter (· < h)).card) = H := by
    simp [Finset.image_id']
  rw [h]

theorem fp_repeat (H P : Finset ℕ) (n hs : ℕ) (hsub : H ⊆ P) :
    find_pruneable_heads_and_indices H n hs P = (∅, List.range (n * hs)) := by
  unfold find_pruneable_heads_and_indices
  have h : H \ P = ∅ := Finset.sdiff_eq_empty_iff_subset.mpr hsub
  rw [h, Finset.image_empty, keptIndex_empty]

theorem prune_heads_idempotent {α : Type _} [Inhabited α]
    (s : NeighborhoodAttentionModuleState α) (H : Finset ℕ) (hne : H.Nonempty)
    (hfresh : s.pruned_heads = ∅)
    (hlt : ∀ h ∈ H, h < s.num_attention_heads) :
    (s.prune_heads H).prune_heads H = s.prune_heads H := by
  have hcard : ¬H.card = 0 := by
    have := Finset.card_pos.mpr hne; omega
  have e1 : s.prune_heads H =
      { num_attention_heads := s.num_attention_heads - H.card,
        attention_head_size := s.attention_head_size,
        all_head_size := s.attention_head_size *
          (s.num_attention_heads - H.card),
        query := prune_linear_layer s.query
          (keptIndex s.num_attention_heads s.attention_head_size H),
        key := prune_linear_layer s.key
          (keptIndex s.num_attention_heads s.attention_head_size H),
        value := prune_linear_layer s.value
          (keptIndex s.num_attention_heads s.attention_head_size H),
        output_dense := prune_linear_layer_axis1 s.output_dense
          (keptIndex s.num_attention_heads s.attention_head_size H),
        pruned_heads := ∅ ∪ H } := by
    simp only [NeighborhoodAttentionModuleState.prune_heads, if_neg hcard, hfresh, fp_fresh]
  have hidx1len :
      (keptIndex s.num_attention_heads s.attention_head_size H).length =
        (s.num_attention_heads - H.card) * s.attention_head_size := by
    rw [keptIndex_length]
    have h1 := filter_notmem_card H s.num_attention_heads
    have h2 : H.filter (· < s.num_attention_heads) = H :=
      Finset.filter_true_of_mem (fun x hx => hlt x hx)
    rw [h2] at h1
    have h3 : ((List.range s.num_attention_heads).filter
        (fun h => h ∉ H)).length = s.num_attention_heads - H.card := by omega
    rw [h3]
  have hq : ∀ l : LinearLayer α,
      prune_linear_layer (prune_linear_layer l
        (keptIndex s.num_attention_heads s.attention_head_size H))
        (List.range ((s.num_attention_heads - H.card) *
          s.attention_head_size)) =
      prune_linear_layer l
        (keptIndex s.num_attention_heads s.attention_head_size H) := by
    intro l
    apply prune_linear_layer_full
    · simp [prune_linear_layer, hidx1len]
    · intro b hb
      simp only [prune_linear_layer, Option.mem_def, Option.map_eq_some'] at hb
      obtain ⟨b0, _, rfl⟩ := hb
      simp [hidx1len]
  have ho : prune_linear_layer_axis1
      (prune_linear_layer_axis1 s.output_dense
        (keptIndex s.num_attention_heads s.attention_head_size H))
      (List.range ((s.num_attention_heads - H.card) *
        s.attention_head_size)) =
      prune_linear_layer_axis1 s.output_dense
        (keptIndex s.num_attention_heads s.attention_head_size H) := by
    apply prune_linear_layer_axis1_full
    intro row hrow
    simp only [prune_linear_layer_axis1, List.mem_map] at hrow
    obtain ⟨r0, _, rfl⟩ := hrow
    simp [hidx1len]
  have hsub : H ⊆ ∅ ∪ H := by simp
  rw [e1]
  simp only [NeighborhoodAttentionModuleState.prune_heads, if_neg hcard, fp_repeat _ _ _ _ hsub]
  simp only [Finset.card_empty, Nat.sub_zero, Finset.union_empty]
  rw [hq, hq, hq, ho]

/-- Witness for `prune_heads_idempotent`: pruning head 2 twice on a fresh
3-head module equals pruning it once. -/
theorem prune_heads_idempotent_witness :
    (pruneWitnessModule.prune_heads {2}).prune_heads {2} =
      pruneWitnessModule.prune_heads {2} :=
  prune_heads_idempotent pruneWitnessModule {2} ⟨2, by decide⟩ rfl (by decide)

/-- **C6 (code bug).** For every non-empty head-pruning request,
`NatModel._prune_heads` raises `AttributeError` on the very first attribute
lookup `self.encoder.layer` — `NatEncoder` assigns `num_levels`, `config`
and `levels` only — so the pruning is never delegated to any attention
module, contradicting the claim that model-level pruning succeeds. -/
theorem natModel_pruneHeads_attributeError {α : Type _}
    (encoder : NatEncoderState α) (heads_to_prune : List (ℕ × Finset ℕ))
    (h : heads_to_prune ≠ []) :
    NatModel._prune_heads encoder heads_to_prune =
      Except.error (NatError.attributeError "layer") := by
  cases heads_to_prune with
  | nil => exact absurd rfl h
  | cons e t => rfl

/-- Witness for `natModel_pruneHeads_attributeError`: the failing input
`heads_to_prune = {0: [2]}`. -/
theorem natModel_pruneHeads_attributeError_witness :
    NatModel._prune_heads (⟨0, []⟩ : NatEncoderState ℕ)
        [(0, ({2} : Finset ℕ))] =
      Except.error (NatError.attributeError "layer") :=
  natModel_pruneHeads_attributeError _ _ (List.cons_ne_nil _ _)

/-- **C5.** On a 4-stage configuration with selected out-features
`stage1` and `stage3`, the backbone forward pass emits exactly two feature
maps, in ascending stage order — the stages' before-downsampling states,
each normalized through the layer-norm instance keyed by its own stage
name — with no feature map for `stage2` or `stage4`; this holds for every
caller-level `output_hidden_states` flag and configuration default, because
the encoder is invoked with hidden-state collection hard-coded on, recording
the embedding boundary plus all four stage boundaries. -/
theorem natBackbone_stage_selection {T R : Type} (permute : T → R)
    (stage1 stage2 stage3 stage4 : T → T × T) (normApply : String → R → R)
    (embedding_output : T) (caller_flag : Option Bool) (config_flag : Bool) :
    (NatBackbone.construct permute [stage1, stage2, stage3, stage4]
        ["stem", "stage1", "stage2", "stage3", "stage4"]
        ["stage1", "stage3"] normApply embedding_output caller_flag
        config_flag).1 =
      [normApply "stage1" (permute (stage1 embedding_output).2),
       normApply "stage3" (permute
         (stage3 (stage2 (stage1 embedding_output).1).1).2)] ∧
    (NatEncoder.construct_states permute [stage1, stage2, stage3, stage4]
        embedding_output true true).2.2 =
      [permute embedding_output,
       permute (stage1 embedding_output).2,
       permute (stage2 (stage1 embedding_output).1).2,
       permute (stage3 (stage2 (stage1 embedding_output).1).1).2,
       permute (stage4 (stage3 (stage2 (stage1 embedding_output).1).1).1).2] :=
  ⟨rfl, rfl⟩

set_option maxRecDepth 10000 in
/-- **C10.** Both operations of `AutoModelWithLMHead` return the underlying
LM-head facade's result unchanged while emitting exactly the deprecation
warning — a diagnostic, not an error, so execution proceeds to the delegated
call — and that warning names all three task-specific replacement facades. -/
theorem autoModelWithLMHead_deprecation {Config Id Args Model : Type}
    (base_from_config : Config → Model)
    (base_from_pretrained : Id → Args → Model)
    (config : Config) (name_or_path : Id) (args : Args) :
    AutoModelWithLMHead.from_config base_from_config config =
      (base_from_config config, [autoModelWithLMHeadDeprecationWarning]) ∧
    AutoModelWithLMHead.from_pretrained base_from_pretrained name_or_path
        args =
      (base_from_pretrained name_or_path args,
       [autoModelWithLMHeadDeprecationWarning]) ∧
    ("AutoModelForCausalLM".data).IsInfix
      (autoModelWithLMHeadDeprecationWarning.data) ∧
    ("AutoModelForMaskedLM".data).IsInfix
      (autoModelWithLMHeadDeprecationWarning.data) ∧
    ("AutoModelForSeq2SeqLM".data).IsInfix
      (autoModelWithLMHeadDeprecationWarning.data) :=
  ⟨rfl, rfl, by decide, by decide, by decide⟩
